import Mathlib

/-!
Verification development for the API-gateway provisioning scripts.

The repository has two source modules:

* `aws_config/aws_config.py` — resolves AWS endpoint/region/credential
  configuration from environment variables, or a local development endpoint
  in debug mode.
* `api_gateway/aws_gateway.py` — an orchestrator that provisions a mock
  REST API on an API-gateway service: it creates an API, resolves the root
  resource, wires a method + mock integration onto the root and onto one
  child resource `/test`, and deploys the result to a stage.

The gateway client is remote; we model it as an environment (an oracle
deciding, per call, whether the provider raises a `ClientError` and which
identifiers it returns) and instrument the embedding with a timestamped
trace of every remote call that is issued, plus the list of printed lines.
`time.sleep n` advances the clock by `n`; remote calls are instantaneous.
-/

namespace AwsConfig

/-- Result record of `load_aws_config` (the Python dict with keys
`endpoint_url`, `region_name`, `aws_access_key_id`, `aws_secret_access_key`). -/
structure AwsConfig where
  endpoint_url : String
  region_name : String
  aws_access_key_id : String
  aws_secret_access_key : String
  deriving Repr, DecidableEq

/-- Configuration-resolution failure. In the source this is the
`RuntimeError("Missing required AWS environment variable: ...")` raised by
`load_aws_config`; the spec calls this error class `ConfigurationError`. -/
inductive ConfigError where
  | configurationError (msg : String)
  deriving Repr, DecidableEq

/-- The process environment: a partial map from variable names to values.
`none` is an unset variable; `some ""` is a variable set to the empty string. -/
def EnvVars : Type := String → Option String

/-- Python `str(...)` applied to the result of `os.getenv(key)`:
`str(None)` is the literal string `"None"`. -/
def pyStr : Option String → String
  | none => "None"
  | some s => s

/-- Python truthiness of `os.getenv(key)`: falsy when the variable is unset
or set to the empty string. -/
def envTruthy : Option String → Bool
  | none => false
  | some s => !s.isEmpty

/-- The `required` list of `load_aws_config`. -/
def requiredKeys : List String :=
  ["AWS_REGION", "AWS_ACCESS_KEY_ID", "AWS_SECRET_ACCESS_KEY"]

/-- Embedding of `load_aws_config` (aws_config.py). `localstackHost` stands
for `localstack.sdk.aws.AWSClient().configuration.host`, the self-reported
host of the local development service (an external collaborator). Debug mode
is selected by `str(os.getenv("DEBUG", "0")) == "1"`. In production mode the
loop over `required` raises on the first unset-or-empty variable; otherwise
each value is passed through Python `str`. -/
def load_aws_config (envv : EnvVars) (localstackHost : String) :
    Except ConfigError AwsConfig :=
  let debug := ((envv "DEBUG").getD "0") == "1"
  if debug then
    Except.ok
      { endpoint_url := localstackHost
        region_name := "us-east-1"
        aws_access_key_id := "test"
        aws_secret_access_key := "test" }
  else
    match requiredKeys.find? (fun k => !envTruthy (envv k)) with
    | some k =>
        Except.error (ConfigError.configurationError
          ("Missing required AWS environment variable: " ++ k))
    | none =>
        Except.ok
          { endpoint_url := pyStr (envv "AWS_ENDPOINT_URL")
            region_name := pyStr (envv "AWS_REGION")
            aws_access_key_id := pyStr (envv "AWS_ACCESS_KEY_ID")
            aws_secret_access_key := pyStr (envv "AWS_SECRET_ACCESS_KEY") }

/-- A concrete process environment selecting debug mode. -/
def envvDebug : EnvVars := fun k => if k = "DEBUG" then some "1" else none

/-- A concrete process environment with every variable unset. -/
def envvEmpty : EnvVars := fun _ => none

/-- A concrete production process environment with the three required
variables set and `AWS_ENDPOINT_URL` unset. -/
def envvProd : EnvVars := fun k =>
  if k = "AWS_REGION" then some "eu-west-1"
  else if k = "AWS_ACCESS_KEY_ID" then some "AKIA123"
  else if k = "AWS_SECRET_ACCESS_KEY" then some "secret123"
  else none

end AwsConfig

namespace AwsGateway

/-- One item of the `get_resources` response: `{"id": ..., "path": ...}`. -/
structure ResourceItem where
  id : String
  path : String
  deriving Repr, DecidableEq

/-- A remote gateway call, with the arguments the source passes to the
boto3 `apigateway` client. -/
inductive GatewayCall where
  | createRestApi (name descr : String) (endpointTypes : List String)
  | getResources (restApiId : String)
  | createResource (restApiId parentId pathPart : String)
  | putMethod (restApiId resourceId httpMethod authorizationType : String)
  | putMethodResponse (restApiId resourceId httpMethod statusCode responseModel : String)
  | putIntegration (restApiId resourceId httpMethod integType requestTemplate : String)
  | putIntegrationResponse (restApiId resourceId httpMethod statusCode responseTemplate : String)
  | createDeployment (restApiId stageName descr : String)
  deriving Repr, DecidableEq

/-- A Python exception escaping a function of the source: a provider
`ClientError` (with its message), the `StopIteration` raised by `next` on an
exhausted generator, or `SystemExit` raised by `exit(code)`. -/
inductive PyError where
  | clientError (msg : String)
  | stopIteration
  | systemExit (code : Nat)
  deriving Repr, DecidableEq

/-- Instrumented run state: a clock (advanced only by `time.sleep`), the
timestamped trace of remote calls issued so far (in order), and the printed
lines. -/
structure St where
  clock : Nat
  calls : List (Nat × GatewayCall)
  output : List String
  deriving Repr, DecidableEq

/-- Initial state of a run. -/
def initSt : St := { clock := 0, calls := [], output := [] }

/-- The remote gateway service, as an oracle: for each operation, given the
index of the call in the run's trace and the call's arguments, it either
returns the provider response or raises a `ClientError` with a message. -/
structure Env where
  createRestApiR : Nat → String → Except String String
  getResourcesR : Nat → String → Except String (List ResourceItem)
  createResourceR : Nat → String → String → String → Except String String
  putMethodR : Nat → String → String → String → Except String Unit
  putMethodResponseR : Nat → String → String → String → Except String Unit
  putIntegrationR : Nat → String → String → String → Except String Unit
  putIntegrationResponseR : Nat → String → String → String → Except String Unit
  createDeploymentR : Nat → String → String → Except String String

/-- The effect monad of the embedding: a state-and-exception monad over the
instrumented state, reading the gateway oracle. -/
def M (α : Type) : Type := Env → St → Except PyError α × St

instance : Monad M where
  pure a := fun _ s => (Except.ok a, s)
  bind x f := fun env s =>
    match x env s with
    | (Except.ok a, s1) => f a env s1
    | (Except.error e, s1) => (Except.error e, s1)

/-- Python `print`: appends one line to the output. -/
def printLine (msg : String) : M Unit :=
  fun _ s => (Except.ok (), { s with output := s.output ++ [msg] })

/-- Python `time.sleep n`: advances the clock by `n` time units. -/
def sleep (n : Nat) : M Unit :=
  fun _ s => (Except.ok (), { s with clock := s.clock + n })

/-- Python `exit(code)`: raises `SystemExit`. -/
def pyExit {α : Type} (code : Nat) : M α :=
  fun _ s => (Except.error (PyError.systemExit code), s)

/-- The `StopIteration` raised by `next` on an exhausted generator. -/
def raiseStopIteration {α : Type} : M α :=
  fun _ s => (Except.error PyError.stopIteration, s)

/-- Python `try: body except ClientError as e: handler e`. State changes made
by `body` before the exception persist; errors other than `ClientError`
propagate. -/
def tryClient {α : Type} (body : M α) (handler : String → M α) : M α :=
  fun env s =>
    match body env s with
    | (Except.error (PyError.clientError e), s1) => handler e env s1
    | other => other

/-- Record one remote call in the trace, stamped with the current clock. -/
def record (c : GatewayCall) (s : St) : St :=
  { s with calls := s.calls ++ [(s.clock, c)] }

/-- Issue one remote call: the call is recorded in the trace (issued calls
are observed even when they fail), then the oracle's response either returns
a value or raises a `ClientError`. -/
def remote {α : Type} (c : GatewayCall) (resp : Env → Nat → Except String α) : M α :=
  fun env s =>
    match resp env s.calls.length with
    | Except.ok a => (Except.ok a, record c s)
    | Except.error e => (Except.error (PyError.clientError e), record c s)

/-- The fixed API description string passed to `create_rest_api`. -/
def apiDescr : String := "A test API created with LocalStack and Boto3"

/-- The fixed deployment description string passed to `create_deployment`. -/
def depDescr : String := "Deployment with full mock setup"

/-- The boto3 call `apigateway_client.create_rest_api(...)` with the fixed
description and REGIONAL endpoint configuration, returning `response["id"]`. -/
def callCreateRestApi (name : String) : M String :=
  remote (GatewayCall.createRestApi name apiDescr ["REGIONAL"])
    (fun env k => env.createRestApiR k name)

/-- The boto3 call `apigateway_client.get_resources(restApiId=...)`,
returning `response["items"]`. -/
def callGetResources (api_id : String) : M (List ResourceItem) :=
  remote (GatewayCall.getResources api_id)
    (fun env k => env.getResourcesR k api_id)

/-- The boto3 call `apigateway_client.create_resource(...)`, returning
`response["id"]`. -/
def callCreateResource (api_id parent_id path_part : String) : M String :=
  remote (GatewayCall.createResource api_id parent_id path_part)
    (fun env k => env.createResourceR k api_id parent_id path_part)

/-- The boto3 call `apigateway_client.put_method(...)` with
`authorizationType="NONE"`. -/
def callPutMethod (api_id resource_id http_method : String) : M Unit :=
  remote (GatewayCall.putMethod api_id resource_id http_method "NONE")
    (fun env k => env.putMethodR k api_id resource_id http_method)

/-- The boto3 call `apigateway_client.put_method_response(...)` with
`statusCode="200"` and response model `Empty`. -/
def callPutMethodResponse (api_id resource_id http_method : String) : M Unit :=
  remote (GatewayCall.putMethodResponse api_id resource_id http_method "200" "Empty")
    (fun env k => env.putMethodResponseR k api_id resource_id http_method)

/-- Escaping applied by `json.dumps` to the characters of a string value:
a backslash or a double quote is preceded by a backslash. Control-character
escapes are not modelled; no string in the program contains one. -/
def jsonEscape (s : String) : String :=
  String.join (s.data.map (fun c =>
    if c = Char.ofNat 92 then "\\\\"
    else if c = Char.ofNat 34 then "\\\"" else String.singleton c))

/-- A JSON string literal as produced by `json.dumps`. -/
def pyJsonStr (s : String) : String := "\"" ++ jsonEscape s ++ "\""

/-- The integration request template `json.dumps({"statusCode": 200})`. -/
def integrationRequestTemplate : String := "\x7b\"statusCode\": 200\x7d"

/-- The integration response template
`json.dumps({"statusCode": 200, "body": response_body})`. -/
def integrationResponseTemplate (response_body : String) : String :=
  "\x7b\"statusCode\": 200, \"body\": " ++ pyJsonStr response_body ++ "\x7d"

/-- The boto3 call `apigateway_client.put_integration(...)` with
`type="MOCK"` and the fixed request template. -/
def callPutIntegration (api_id resource_id http_method : String) : M Unit :=
  remote (GatewayCall.putIntegration api_id resource_id http_method "MOCK"
      integrationRequestTemplate)
    (fun env k => env.putIntegrationR k api_id resource_id http_method)

/-- The boto3 call `apigateway_client.put_integration_response(...)` with
`statusCode="200"` and the response template built from `response_body`. -/
def callPutIntegrationResponse (api_id resource_id http_method response_body : String) :
    M Unit :=
  remote (GatewayCall.putIntegrationResponse api_id resource_id http_method "200"
      (integrationResponseTemplate response_body))
    (fun env k => env.putIntegrationResponseR k api_id resource_id http_method)

/-- The boto3 call `apigateway_client.create_deployment(...)` with the fixed
description, returning `response["id"]`. -/
def callCreateDeployment (api_id stage_name : String) : M String :=
  remote (GatewayCall.createDeployment api_id stage_name depDescr)
    (fun env k => env.createDeploymentR k api_id stage_name)

/-- A single-quote character, used in printed messages. -/
def sq : String := String.singleton (Char.ofNat 39)

/-- Python truthiness of an optional string result: `None` and `""` are
falsy. -/
def truthyStr : Option String → Bool
  | none => false
  | some s => !s.isEmpty

/-- Embedding of `create_rest_api` (aws_gateway.py): issues the
`create_rest_api` call; on success prints and returns the new API id,
on `ClientError` prints the error and returns `None`. -/
def create_rest_api (api_name : String) : M (Option String) :=
  tryClient
    (do
      let api_id ← callCreateRestApi api_name
      printLine ("Created REST API: " ++ api_name ++ " (ID: " ++ api_id ++ ")")
      pure (some api_id))
    (fun e => do
      printLine ("Error creating API: " ++ e)
      pure none)

/-- Embedding of `get_root_resource_id` (aws_gateway.py): issues
`get_resources`, then takes `next(item["id"] for item in items if
item["path"] == "/")` — the first item whose path is `"/"`, raising
`StopIteration` when there is none. There is no `try`/`except` here: both a
provider `ClientError` and the `StopIteration` escape uncaught. -/
def get_root_resource_id (api_id : String) : M String := do
  let items ← callGetResources api_id
  match items.find? (fun item => item.path == "/") with
  | some item => do
      printLine ("Root resource ID: " ++ item.id)
      pure item.id
  | none => raiseStopIteration

/-- Embedding of `create_child_resource` (aws_gateway.py). -/
def create_child_resource (api_id parent_resource_id path_part : String) :
    M (Option String) :=
  tryClient
    (do
      let child_resource_id ← callCreateResource api_id parent_resource_id path_part
      printLine ("Created child resource /" ++ path_part ++
        " (ID: " ++ child_resource_id ++ ")")
      pure (some child_resource_id))
    (fun e => do
      printLine ("Error creating child resource: " ++ e)
      pure none)

/-- Embedding of `create_method` (aws_gateway.py): returns the provider
response (modelled `()`) on success, `None` on `ClientError`. -/
def create_method (api_id resource_id http_method : String) : M (Option Unit) :=
  tryClient
    (do
      let response ← callPutMethod api_id resource_id http_method
      printLine ("Created " ++ http_method ++ " method on resource " ++ resource_id)
      pure (some response))
    (fun e => do
      printLine ("Error creating method: " ++ e)
      pure none)

/-- Embedding of `create_method_response` (aws_gateway.py). -/
def create_method_response (api_id resource_id http_method : String) : M Unit :=
  tryClient
    (do
      callPutMethodResponse api_id resource_id http_method
      printLine ("Created method response (200) for " ++ http_method ++
        " on resource " ++ resource_id))
    (fun e => printLine ("Error creating method response: " ++ e))

/-- Embedding of `set_mock_integration` (aws_gateway.py). The
`response_body` parameter is part of the source signature but unused by the
body: the request template sent to `put_integration` contains only the
status code. -/
def set_mock_integration (api_id resource_id http_method response_body : String) :
    M Unit :=
  tryClient
    (do
      callPutIntegration api_id resource_id http_method
      printLine ("Set mock integration for " ++ http_method ++
        " on resource " ++ resource_id))
    (fun e => printLine ("Error setting integration: " ++ e))

/-- Embedding of `set_mock_integration_response` (aws_gateway.py). -/
def set_mock_integration_response
    (api_id resource_id http_method response_body : String) : M Unit :=
  tryClient
    (do
      callPutIntegrationResponse api_id resource_id http_method response_body
      printLine ("Set mock integration response for " ++ http_method ++
        " on resource " ++ resource_id))
    (fun e => printLine ("Error setting integration response: " ++ e))

/-- The print loop of `print_resources`. -/
def printItems : List ResourceItem → M Unit
  | [] => pure ()
  | item :: rest => do
      printLine ("  Path: " ++ item.path ++ ", ID: " ++ item.id)
      printItems rest

/-- Embedding of `print_resources` (aws_gateway.py): issues `get_resources`
and prints each item. No `try`/`except`: a `ClientError` escapes uncaught. -/
def print_resources (api_id : String) : M Unit := do
  let items ← callGetResources api_id
  printLine "\nCurrent Resources:"
  printItems items

/-- Embedding of `create_deployment` (aws_gateway.py): sleeps 10 time units
(the propagation delay, inside the `try`), then issues `create_deployment`;
on success prints and returns the deployment id, on `ClientError` prints the
error and returns `None`. -/
def create_deployment (api_id stage_name : String) : M (Option String) :=
  tryClient
    (do
      sleep 10
      let dep_id ← callCreateDeployment api_id stage_name
      printLine ("Deployed API to stage " ++ sq ++ stage_name ++ sq ++
        ". Deployment ID: " ++ dep_id)
      pure (some dep_id))
    (fun e => do
      printLine ("Error deploying API: " ++ e)
      pure none)

/-- Embedding of `get_invoke_url` (aws_gateway.py): builds and prints the
invoke URL (the second and third printed lines are not f-strings in the
source, so their braces are literal). -/
def get_invoke_url (api_id : String) : M String := do
  let base_url :=
    "http://" ++ api_id ++ ".execute-api.localhost.localstack.cloud:4566/prod"
  printLine ("\nBase Invoke URL: " ++ base_url)
  printLine ("Test root: curl -X GET " ++ sq ++ "\x7bbase_url\x7d/" ++ sq)
  printLine ("Test /test: curl -X GET " ++ sq ++ "\x7bbase_url\x7d/test" ++ sq)
  printLine ("Alternative (if DNS issues): http://localhost:4566/_aws/execute-api/\x7bapi_id\x7d/prod/")
  pure base_url

/-- Embedding of the orchestrator `setup_rest_api_gateway` (aws_gateway.py).
`if not api_id: exit(1)` uses Python truthiness (both `None` and `""` are
falsy), likewise `if test_resource_id:` and `if deployment_id:`. -/
def setup_rest_api_gateway (api_name http_method : String) : M Unit := do
  let api_idO ← create_rest_api api_name
  if !truthyStr api_idO then pyExit 1
  else do
    let api_id := api_idO.getD ""
    let root_resource_id ← get_root_resource_id api_id
    let _ ← create_method api_id root_resource_id http_method
    create_method_response api_id root_resource_id http_method
    set_mock_integration api_id root_resource_id http_method "Hello from root!"
    set_mock_integration_response api_id root_resource_id http_method "Hello from root!"
    let test_resource_idO ← create_child_resource api_id root_resource_id "test"
    if truthyStr test_resource_idO then do
      let test_resource_id := test_resource_idO.getD ""
      let _ ← create_method api_id test_resource_id http_method
      create_method_response api_id test_resource_id http_method
      set_mock_integration api_id test_resource_id http_method "Hello from /test!"
      set_mock_integration_response api_id test_resource_id http_method "Hello from /test!"
      print_resources api_id
      let deployment_idO ← create_deployment api_id "prod"
      if truthyStr deployment_idO then do
        let _ ← get_invoke_url api_id
        pure ()
      else pure ()
    else printLine "Failed to create /test resource; skipping."

/-- The run of the orchestrator from the initial state against a gateway
oracle. -/
def run (api_name http_method : String) (env : Env) : Except PyError Unit × St :=
  setup_rest_api_gateway api_name http_method env initSt

/-- The timestamped trace of remote calls issued by a run. -/
def runTrace (api_name http_method : String) (env : Env) : List (Nat × GatewayCall) :=
  (run api_name http_method env).2.calls

/-- The value returned by `create_method`, as a function of the provider's
response to its `put_method` call. -/
def methodResult : Except String Unit → Option Unit
  | Except.ok _ => some ()
  | Except.error _ => none

/-- The line printed by `create_method`, as a function of the provider's
response. -/
def methodLine (verb rid : String) : Except String Unit → String
  | Except.ok _ => "Created " ++ verb ++ " method on resource " ++ rid
  | Except.error e => "Error creating method: " ++ e

/-- The line printed by `create_method_response`, as a function of the
provider's response. -/
def methodResponseLine (verb rid : String) : Except String Unit → String
  | Except.ok _ => "Created method response (200) for " ++ verb ++ " on resource " ++ rid
  | Except.error e => "Error creating method response: " ++ e

/-- The line printed by `set_mock_integration`, as a function of the
provider's response. -/
def integrationLine (verb rid : String) : Except String Unit → String
  | Except.ok _ => "Set mock integration for " ++ verb ++ " on resource " ++ rid
  | Except.error e => "Error setting integration: " ++ e

/-- The line printed by `set_mock_integration_response`, as a function of
the provider's response. -/
def integrationResponseLine (verb rid : String) : Except String Unit → String
  | Except.ok _ => "Set mock integration response for " ++ verb ++ " on resource " ++ rid
  | Except.error e => "Error setting integration response: " ++ e

/-- The lines printed by the loop of `print_resources`. -/
def resourceLines : List ResourceItem → List String
  | [] => []
  | item :: rest => ("  Path: " ++ item.path ++ ", ID: " ++ item.id) :: resourceLines rest

/-- The lines printed by `get_invoke_url`. -/
def invokeUrlLines (api : String) : List String :=
  ["\nBase Invoke URL: " ++ ("http://" ++ api ++ ".execute-api.localhost.localstack.cloud:4566/prod"),
   "Test root: curl -X GET " ++ sq ++ "\x7bbase_url\x7d/" ++ sq,
   "Test /test: curl -X GET " ++ sq ++ "\x7bbase_url\x7d/test" ++ sq,
   "Alternative (if DNS issues): http://localhost:4566/_aws/execute-api/\x7bapi_id\x7d/prod/"]

/-- The four wiring calls issued for one resource (all at clock 0). -/
def chainCalls (api rid verb body : String) : List (Nat × GatewayCall) :=
  [(0, GatewayCall.putMethod api rid verb "NONE"),
   (0, GatewayCall.putMethodResponse api rid verb "200" "Empty"),
   (0, GatewayCall.putIntegration api rid verb "MOCK" integrationRequestTemplate),
   (0, GatewayCall.putIntegrationResponse api rid verb "200" (integrationResponseTemplate body))]

/-- The trace of a run that reaches child-resource creation: API creation,
root resolution, the four root wiring calls, and the child-resource call. -/
def callsUpToChild (name verb a rootId : String) : List (Nat × GatewayCall) :=
  (0, GatewayCall.createRestApi name apiDescr ["REGIONAL"]) ::
    (0, GatewayCall.getResources a) ::
    (chainCalls a rootId verb "Hello from root!" ++
      [(0, GatewayCall.createResource a rootId "test")])

/-- The trace of a run that reaches the verification listing: the child
wiring calls and the second `get_resources` follow. -/
def callsUpToVerify (name verb a rootId childId : String) : List (Nat × GatewayCall) :=
  callsUpToChild name verb a rootId ++
    (chainCalls a childId verb "Hello from /test!" ++ [(0, GatewayCall.getResources a)])

/-- The trace of a run that reaches deployment: the deployment call is
issued at clock 10, after the propagation sleep. -/
def fullCalls (name verb a rootId childId : String) : List (Nat × GatewayCall) :=
  callsUpToVerify name verb a rootId childId ++
    [(10, GatewayCall.createDeployment a "prod" depDescr)]

/-- Whether a gateway call is an API-creation call. -/
def isCreateApiCall : GatewayCall → Bool
  | GatewayCall.createRestApi _ _ _ => true
  | _ => false

/-- Whether a gateway call is a child-resource-creation call. -/
def isCreateResourceCall : GatewayCall → Bool
  | GatewayCall.createResource _ _ _ => true
  | _ => false

/-- Whether a gateway call is a deployment call. -/
def isDeploymentCall : GatewayCall → Bool
  | GatewayCall.createDeployment _ _ _ => true
  | _ => false

/-- Whether a gateway call is a wiring call: a method, method-response,
integration, or integration-response call. -/
def isWiringCall : GatewayCall → Bool
  | GatewayCall.putMethod _ _ _ _ => true
  | GatewayCall.putMethodResponse _ _ _ _ _ => true
  | GatewayCall.putIntegration _ _ _ _ _ => true
  | GatewayCall.putIntegrationResponse _ _ _ _ _ => true
  | _ => false

/-- Whether a gateway call is a method call targeting resource `rid`. -/
def isMethodCallOn (rid : String) : GatewayCall → Bool
  | GatewayCall.putMethod _ r _ _ => r == rid
  | _ => false

/-- Whether a gateway call is a method-response call targeting `rid`. -/
def isMethodResponseCallOn (rid : String) : GatewayCall → Bool
  | GatewayCall.putMethodResponse _ r _ _ _ => r == rid
  | _ => false

/-- Whether a gateway call is an integration call targeting `rid`. -/
def isIntegrationCallOn (rid : String) : GatewayCall → Bool
  | GatewayCall.putIntegration _ r _ _ _ => r == rid
  | _ => false

/-- Whether a gateway call is an integration-response call targeting `rid`. -/
def isIntegrationResponseCallOn (rid : String) : GatewayCall → Bool
  | GatewayCall.putIntegrationResponse _ r _ _ _ => r == rid
  | _ => false

/-- The resource a wiring call targets (`none` for non-wiring calls). -/
def wiringTarget : GatewayCall → Option String
  | GatewayCall.putMethod _ r _ _ => some r
  | GatewayCall.putMethodResponse _ r _ _ _ => some r
  | GatewayCall.putIntegration _ r _ _ _ => some r
  | GatewayCall.putIntegrationResponse _ r _ _ _ => some r
  | _ => none

/-- Number of calls in a trace satisfying a predicate. -/
def countCalls (p : GatewayCall → Bool) (tr : List (Nat × GatewayCall)) : Nat :=
  tr.countP (fun tc => p tc.2)

/-- A concrete gateway oracle on which every remote call succeeds. -/
def envAllOk : Env :=
  { createRestApiR := fun _ _ => Except.ok "api1"
    getResourcesR := fun _ _ =>
      Except.ok [{ id := "root1", path := "/" }, { id := "child1", path := "/test" }]
    createResourceR := fun _ _ _ _ => Except.ok "child1"
    putMethodR := fun _ _ _ _ => Except.ok ()
    putMethodResponseR := fun _ _ _ _ => Except.ok ()
    putIntegrationR := fun _ _ _ _ => Except.ok ()
    putIntegrationResponseR := fun _ _ _ _ => Except.ok ()
    createDeploymentR := fun _ _ _ => Except.ok "dep1" }

/-- A concrete oracle on which only child-resource creation fails. -/
def envChildFail : Env :=
  { envAllOk with createResourceR := fun _ _ _ _ => Except.error "conflict" }

/-- A concrete oracle on which API creation fails. -/
def envApiFail : Env :=
  { envAllOk with createRestApiR := fun _ _ => Except.error "denied" }

/-- A concrete oracle on which `get_resources` fails. -/
def envListFail : Env :=
  { envAllOk with getResourcesR := fun _ _ => Except.error "boom" }

/-- A concrete oracle on which `put_method` fails. -/
def envWireFail : Env :=
  { envAllOk with putMethodR := fun _ _ _ _ => Except.error "down" }

/-- A concrete oracle whose resource listing contains no root item. -/
def envNoRoot : Env :=
  { envAllOk with getResourcesR := fun _ _ => Except.ok [{ id := "x1", path := "/other" }] }

end AwsGateway

/-!
Helper lemmas: single-step run equations for each source function, and the
trace shapes of the orchestrator under the possible branch outcomes.
-/

namespace AwsGateway

/-- Unfolding of `bind` in the effect monad. -/
theorem bind_eq {α β : Type} (x : M α) (f : α → M β) (env : Env) (s : St) :
    (x >>= f) env s =
      match x env s with
      | (Except.ok a, s1) => f a env s1
      | (Except.error e, s1) => (Except.error e, s1) := rfl

/-- Unfolding of `pure` in the effect monad. -/
theorem pure_eq {α : Type} (a : α) (env : Env) (s : St) :
    (pure a : M α) env s = (Except.ok a, s) := rfl

theorem create_rest_api_ok (env : Env) (s : St) (name a : String)
    (h : env.createRestApiR s.calls.length name = Except.ok a) :
    create_rest_api name env s =
      (Except.ok (some a),
        { s with calls := s.calls ++ [(s.clock, GatewayCall.createRestApi name apiDescr ["REGIONAL"])],
                 output := s.output ++ ["Created REST API: " ++ name ++ " (ID: " ++ a ++ ")"] }) := by
  simp [create_rest_api, tryClient, callCreateRestApi, remote, record, printLine,
    bind_eq, pure_eq, h]

theorem create_rest_api_err (env : Env) (s : St) (name e : String)
    (h : env.createRestApiR s.calls.length name = Except.error e) :
    create_rest_api name env s =
      (Except.ok none,
        { s with calls := s.calls ++ [(s.clock, GatewayCall.createRestApi name apiDescr ["REGIONAL"])],
                 output := s.output ++ ["Error creating API: " ++ e] }) := by
  simp [create_rest_api, tryClient, callCreateRestApi, remote, record, printLine,
    bind_eq, pure_eq, h]

theorem get_root_ok (env : Env) (s : St) (api : String) (items : List ResourceItem)
    (item : ResourceItem)
    (h : env.getResourcesR s.calls.length api = Except.ok items)
    (hf : items.find? (fun it => it.path == "/") = some item) :
    get_root_resource_id api env s =
      (Except.ok item.id,
        { s with calls := s.calls ++ [(s.clock, GatewayCall.getResources api)],
                 output := s.output ++ ["Root resource ID: " ++ item.id] }) := by
  simp [get_root_resource_id, callGetResources, remote, record, printLine,
    bind_eq, pure_eq, h, hf]

theorem get_root_stop (env : Env) (s : St) (api : String) (items : List ResourceItem)
    (h : env.getResourcesR s.calls.length api = Except.ok items)
    (hf : items.find? (fun it => it.path == "/") = none) :
    get_root_resource_id api env s =
      (Except.error PyError.stopIteration,
        { s with calls := s.calls ++ [(s.clock, GatewayCall.getResources api)] }) := by
  simp [get_root_resource_id, callGetResources, remote, record, raiseStopIteration,
    bind_eq, pure_eq, h, hf]

theorem get_root_clientError (env : Env) (s : St) (api e : String)
    (h : env.getResourcesR s.calls.length api = Except.error e) :
    get_root_resource_id api env s =
      (Except.error (PyError.clientError e),
        { s with calls := s.calls ++ [(s.clock, GatewayCall.getResources api)] }) := by
  simp [get_root_resource_id, callGetResources, remote, record, bind_eq, pure_eq, h]

theorem create_child_ok (env : Env) (s : St) (api parent pp c : String)
    (h : env.createResourceR s.calls.length api parent pp = Except.ok c) :
    create_child_resource api parent pp env s =
      (Except.ok (some c),
        { s with calls := s.calls ++ [(s.clock, GatewayCall.createResource api parent pp)],
                 output := s.output ++ ["Created child resource /" ++ pp ++ " (ID: " ++ c ++ ")"] }) := by
  simp [create_child_resource, tryClient, callCreateResource, remote, record, printLine,
    bind_eq, pure_eq, h]

theorem create_child_err (env : Env) (s : St) (api parent pp e : String)
    (h : env.createResourceR s.calls.length api parent pp = Except.error e) :
    create_child_resource api parent pp env s =
      (Except.ok none,
        { s with calls := s.calls ++ [(s.clock, GatewayCall.createResource api parent pp)],
                 output := s.output ++ ["Error creating child resource: " ++ e] }) := by
  simp [create_child_resource, tryClient, callCreateResource, remote, record, printLine,
    bind_eq, pure_eq, h]

theorem create_method_run (env : Env) (s : St) (api rid verb : String) :
    create_method api rid verb env s =
      (Except.ok (methodResult (env.putMethodR s.calls.length api rid verb)),
        { s with calls := s.calls ++ [(s.clock, GatewayCall.putMethod api rid verb "NONE")],
                 output := s.output ++ [methodLine verb rid (env.putMethodR s.calls.length api rid verb)] }) := by
  cases h : env.putMethodR s.calls.length api rid verb <;>
    simp [create_method, tryClient, callPutMethod, remote, record, printLine,
      bind_eq, pure_eq, h, methodResult, methodLine]

theorem create_method_response_run (env : Env) (s : St) (api rid verb : String) :
    create_method_response api rid verb env s =
      (Except.ok (),
        { s with calls := s.calls ++ [(s.clock, GatewayCall.putMethodResponse api rid verb "200" "Empty")],
                 output := s.output ++ [methodResponseLine verb rid (env.putMethodResponseR s.calls.length api rid verb)] }) := by
  cases h : env.putMethodResponseR s.calls.length api rid verb <;>
    simp [create_method_response, tryClient, callPutMethodResponse, remote, record, printLine,
      bind_eq, pure_eq, h, methodResponseLine]

theorem set_mock_integration_run (env : Env) (s : St) (api rid verb body : String) :
    set_mock_integration api rid verb body env s =
      (Except.ok (),
        { s with calls := s.calls ++ [(s.clock, GatewayCall.putIntegration api rid verb "MOCK" integrationRequestTemplate)],
                 output := s.output ++ [integrationLine verb rid (env.putIntegrationR s.calls.length api rid verb)] }) := by
  cases h : env.putIntegrationR s.calls.length api rid verb <;>
    simp [set_mock_integration, tryClient, callPutIntegration, remote, record, printLine,
      bind_eq, pure_eq, h, integrationLine]

theorem set_mock_integration_response_run (env : Env) (s : St) (api rid verb body : String) :
    set_mock_integration_response api rid verb body env s =
      (Except.ok (),
        { s with calls := s.calls ++ [(s.clock, GatewayCall.putIntegrationResponse api rid verb "200" (integrationResponseTemplate body))],
                 output := s.output ++ [integrationResponseLine verb rid (env.putIntegrationResponseR s.calls.length api rid verb)] }) := by
  cases h : env.putIntegrationResponseR s.calls.length api rid verb <;>
    simp [set_mock_integration_response, tryClient, callPutIntegrationResponse, remote, record, printLine,
      bind_eq, pure_eq, h, integrationResponseLine]

theorem printItems_run (items : List ResourceItem) (env : Env) (s : St) :
    printItems items env s = (Except.ok (), { s with output := s.output ++ resourceLines items }) := by
  induction items generalizing s with
  | nil => simp [printItems, resourceLines, pure_eq]
  | cons item rest ih =>
      simp [printItems, resourceLines, bind_eq, printLine, ih, List.append_assoc]

theorem print_resources_ok (env : Env) (s : St) (api : String) (items : List ResourceItem)
    (h : env.getResourcesR s.calls.length api = Except.ok items) :
    print_resources api env s =
      (Except.ok (),
        { s with calls := s.calls ++ [(s.clock, GatewayCall.getResources api)],
                 output := s.output ++ ("\nCurrent Resources:" :: resourceLines items) }) := by
  simp [print_resources, callGetResources, remote, record, printLine, printItems_run,
    bind_eq, pure_eq, h, List.append_assoc]

theorem print_resources_err (env : Env) (s : St) (api e : String)
    (h : env.getResourcesR s.calls.length api = Except.error e) :
    print_resources api env s =
      (Except.error (PyError.clientError e),
        { s with calls := s.calls ++ [(s.clock, GatewayCall.getResources api)] }) := by
  simp [print_resources, callGetResources, remote, record, bind_eq, pure_eq, h]

theorem create_deployment_ok (env : Env) (s : St) (api stage d : String)
    (h : env.createDeploymentR s.calls.length api stage = Except.ok d) :
    create_deployment api stage env s =
      (Except.ok (some d),
        { clock := s.clock + 10,
          calls := s.calls ++ [(s.clock + 10, GatewayCall.createDeployment api stage depDescr)],
          output := s.output ++ ["Deployed API to stage " ++ sq ++ stage ++ sq ++ ". Deployment ID: " ++ d] }) := by
  simp [create_deployment, tryClient, callCreateDeployment, remote, record, printLine,
    sleep, bind_eq, pure_eq, h]

theorem create_deployment_err (env : Env) (s : St) (api stage e : String)
    (h : env.createDeploymentR s.calls.length api stage = Except.error e) :
    create_deployment api stage env s =
      (Except.ok none,
        { clock := s.clock + 10,
          calls := s.calls ++ [(s.clock + 10, GatewayCall.createDeployment api stage depDescr)],
          output := s.output ++ ["Error deploying API: " ++ e] }) := by
  simp [create_deployment, tryClient, callCreateDeployment, remote, record, printLine,
    sleep, bind_eq, pure_eq, h]

theorem get_invoke_url_run (env : Env) (s : St) (api : String) :
    get_invoke_url api env s =
      (Except.ok ("http://" ++ api ++ ".execute-api.localhost.localstack.cloud:4566/prod"),
        { s with output := s.output ++ invokeUrlLines api }) := by
  simp [get_invoke_url, printLine, bind_eq, pure_eq, invokeUrlLines, List.append_assoc]

theorem run_apiErr (env : Env) (name verb e : String)
    (h0 : env.createRestApiR 0 name = Except.error e) :
    (run name verb env).1 = Except.error (PyError.systemExit 1) ∧
      runTrace name verb env = [(0, GatewayCall.createRestApi name apiDescr ["REGIONAL"])] := by
  simp [run, runTrace, setup_rest_api_gateway, bind_eq, truthyStr,
    create_rest_api_err, initSt, h0, pyExit, pure_eq]

theorem run_apiFalsy (env : Env) (name verb a : String)
    (h0 : env.createRestApiR 0 name = Except.ok a) (ha : a.isEmpty = true) :
    (run name verb env).1 = Except.error (PyError.systemExit 1) ∧
      runTrace name verb env = [(0, GatewayCall.createRestApi name apiDescr ["REGIONAL"])] := by
  simp [run, runTrace, setup_rest_api_gateway, bind_eq, truthyStr,
    create_rest_api_ok, initSt, h0, ha, pyExit, pure_eq]

theorem run_rootClientError (env : Env) (name verb a e : String)
    (h0 : env.createRestApiR 0 name = Except.ok a) (ha : a.isEmpty = false)
    (h1 : env.getResourcesR 1 a = Except.error e) :
    (run name verb env).1 = Except.error (PyError.clientError e) ∧
      runTrace name verb env =
        [(0, GatewayCall.createRestApi name apiDescr ["REGIONAL"]),
         (0, GatewayCall.getResources a)] := by
  simp [run, runTrace, setup_rest_api_gateway, bind_eq, truthyStr,
    create_rest_api_ok, get_root_clientError, initSt, h0, ha, h1, pure_eq]

theorem run_rootStop (env : Env) (name verb a : String) (items : List ResourceItem)
    (h0 : env.createRestApiR 0 name = Except.ok a) (ha : a.isEmpty = false)
    (h1 : env.getResourcesR 1 a = Except.ok items)
    (hf : items.find? (fun it => it.path == "/") = none) :
    (run name verb env).1 = Except.error PyError.stopIteration ∧
      runTrace name verb env =
        [(0, GatewayCall.createRestApi name apiDescr ["REGIONAL"]),
         (0, GatewayCall.getResources a)] := by
  simp [run, runTrace, setup_rest_api_gateway, bind_eq, truthyStr,
    create_rest_api_ok, get_root_stop, initSt, h0, ha, h1, hf, pure_eq]

theorem run_childFailErr (env : Env) (name verb a e : String)
    (items : List ResourceItem) (item : ResourceItem)
    (h0 : env.createRestApiR 0 name = Except.ok a) (ha : a.isEmpty = false)
    (h1 : env.getResourcesR 1 a = Except.ok items)
    (hf : items.find? (fun it => it.path == "/") = some item)
    (h6 : env.createResourceR 6 a item.id "test" = Except.error e) :
    (run name verb env).1 = Except.ok () ∧
      runTrace name verb env = callsUpToChild name verb a item.id := by
  simp [run, runTrace, setup_rest_api_gateway, bind_eq, truthyStr,
    create_rest_api_ok, get_root_ok, create_method_run, create_method_response_run,
    set_mock_integration_run, set_mock_integration_response_run, create_child_err,
    initSt, callsUpToChild, chainCalls, h0, ha, h1, hf, h6, printLine, pure_eq]

theorem run_childFailFalsy (env : Env) (name verb a c : String)
    (items : List ResourceItem) (item : ResourceItem)
    (h0 : env.createRestApiR 0 name = Except.ok a) (ha : a.isEmpty = false)
    (h1 : env.getResourcesR 1 a = Except.ok items)
    (hf : items.find? (fun it => it.path == "/") = some item)
    (h6 : env.createResourceR 6 a item.id "test" = Except.ok c) (hc : c.isEmpty = true) :
    (run name verb env).1 = Except.ok () ∧
      runTrace name verb env = callsUpToChild name verb a item.id := by
  simp [run, runTrace, setup_rest_api_gateway, bind_eq, truthyStr,
    create_rest_api_ok, get_root_ok, create_method_run, create_method_response_run,
    set_mock_integration_run, set_mock_integration_response_run, create_child_ok,
    initSt, callsUpToChild, chainCalls, h0, ha, h1, hf, h6, hc, printLine, pure_eq]

theorem run_verifyErr (env : Env) (name verb a c e : String)
    (items : List ResourceItem) (item : ResourceItem)
    (h0 : env.createRestApiR 0 name = Except.ok a) (ha : a.isEmpty = false)
    (h1 : env.getResourcesR 1 a = Except.ok items)
    (hf : items.find? (fun it => it.path == "/") = some item)
    (h6 : env.createResourceR 6 a item.id "test" = Except.ok c) (hc : c.isEmpty = false)
    (h11 : env.getResourcesR 11 a = Except.error e) :
    (run name verb env).1 = Except.error (PyError.clientError e) ∧
      runTrace name verb env = callsUpToVerify name verb a item.id c := by
  simp [run, runTrace, setup_rest_api_gateway, bind_eq, truthyStr,
    create_rest_api_ok, get_root_ok, create_method_run, create_method_response_run,
    set_mock_integration_run, set_mock_integration_response_run, create_child_ok,
    print_resources_err, initSt, callsUpToVerify, callsUpToChild, chainCalls,
    h0, ha, h1, hf, h6, hc, h11, printLine, pure_eq]

theorem run_full (env : Env) (name verb a c : String)
    (items items2 : List ResourceItem) (item : ResourceItem)
    (h0 : env.createRestApiR 0 name = Except.ok a) (ha : a.isEmpty = false)
    (h1 : env.getResourcesR 1 a = Except.ok items)
    (hf : items.find? (fun it => it.path == "/") = some item)
    (h6 : env.createResourceR 6 a item.id "test" = Except.ok c) (hc : c.isEmpty = false)
    (h11 : env.getResourcesR 11 a = Except.ok items2) :
    (run name verb env).1 = Except.ok () ∧
      runTrace name verb env = fullCalls name verb a item.id c := by
  rcases hdep : env.createDeploymentR 12 a "prod" with e | d
  · simp [run, runTrace, setup_rest_api_gateway, bind_eq, truthyStr,
      create_rest_api_ok, get_root_ok, create_method_run, create_method_response_run,
      set_mock_integration_run, set_mock_integration_response_run, create_child_ok,
      print_resources_ok, create_deployment_err, initSt, fullCalls, callsUpToVerify,
      callsUpToChild, chainCalls, h0, ha, h1, hf, h6, hc, h11, hdep, printLine, pure_eq]
  · cases hd : d.isEmpty <;>
      simp [run, runTrace, setup_rest_api_gateway, bind_eq, truthyStr,
        create_rest_api_ok, get_root_ok, create_method_run, create_method_response_run,
        set_mock_integration_run, set_mock_integration_response_run, create_child_ok,
        print_resources_ok, create_deployment_ok, get_invoke_url_run, initSt, fullCalls,
        callsUpToVerify, callsUpToChild, chainCalls, h0, ha, h1, hf, h6, hc, h11, hdep, hd,
        printLine, pure_eq]

/-- Every run's trace has one of five shapes, determined by the outcomes of
API creation, root resolution, child creation, and the verification
listing. -/
theorem runTrace_shapes (env : Env) (name verb : String) :
    runTrace name verb env = [(0, GatewayCall.createRestApi name apiDescr ["REGIONAL"])] ∨
    (∃ a, runTrace name verb env =
      [(0, GatewayCall.createRestApi name apiDescr ["REGIONAL"]),
       (0, GatewayCall.getResources a)]) ∨
    (∃ a rootId, runTrace name verb env = callsUpToChild name verb a rootId) ∨
    (∃ a rootId childId, runTrace name verb env = callsUpToVerify name verb a rootId childId) ∨
    (∃ a rootId childId, runTrace name verb env = fullCalls name verb a rootId childId) := by
  rcases h0 : env.createRestApiR 0 name with e | a
  · exact Or.inl (run_apiErr env name verb e h0).2
  · cases ha : a.isEmpty with
    | true => exact Or.inl (run_apiFalsy env name verb a h0 ha).2
    | false =>
      rcases h1 : env.getResourcesR 1 a with e | items
      · exact Or.inr (Or.inl ⟨a, (run_rootClientError env name verb a e h0 ha h1).2⟩)
      · rcases hf : items.find? (fun it => it.path == "/") with _ | item
        · exact Or.inr (Or.inl ⟨a, (run_rootStop env name verb a items h0 ha h1 hf).2⟩)
        · rcases h6 : env.createResourceR 6 a item.id "test" with e | c
          · exact Or.inr (Or.inr (Or.inl
              ⟨a, item.id, (run_childFailErr env name verb a e items item h0 ha h1 hf h6).2⟩))
          · cases hc : c.isEmpty with
            | true => exact Or.inr (Or.inr (Or.inl
                ⟨a, item.id, (run_childFailFalsy env name verb a c items item h0 ha h1 hf h6 hc).2⟩))
            | false =>
              rcases h11 : env.getResourcesR 11 a with e | items2
              · exact Or.inr (Or.inr (Or.inr (Or.inl
                  ⟨a, item.id, c, (run_verifyErr env name verb a c e items item h0 ha h1 hf h6 hc h11).2⟩)))
              · exact Or.inr (Or.inr (Or.inr (Or.inr
                  ⟨a, item.id, c, (run_full env name verb a c items items2 item h0 ha h1 hf h6 hc h11).2⟩)))

end AwsGateway

namespace AwsGateway

theorem mem_chainCalls {api rid verb2 body : String} {tc : Nat × GatewayCall}
    (htc : tc ∈ chainCalls api rid verb2 body) :
    tc.1 = 0 ∧ isDeploymentCall tc.2 = false ∧ isWiringCall tc.2 = true := by
  simp only [chainCalls, List.mem_cons, List.not_mem_nil, or_false] at htc
  rcases htc with rfl | rfl | rfl | rfl <;> simp [isDeploymentCall, isWiringCall]

theorem mem_callsUpToChild {name verb a rootId : String} {tc : Nat × GatewayCall}
    (htc : tc ∈ callsUpToChild name verb a rootId) :
    tc.1 = 0 ∧ isDeploymentCall tc.2 = false := by
  simp only [callsUpToChild, List.mem_cons, List.mem_append, List.mem_singleton,
    List.not_mem_nil, or_false] at htc
  rcases htc with rfl | rfl | htc | rfl
  · simp [isDeploymentCall]
  · simp [isDeploymentCall]
  · exact ⟨(mem_chainCalls htc).1, (mem_chainCalls htc).2.1⟩
  · simp [isDeploymentCall]

theorem mem_callsUpToVerify {name verb a rootId childId : String} {tc : Nat × GatewayCall}
    (htc : tc ∈ callsUpToVerify name verb a rootId childId) :
    tc.1 = 0 ∧ isDeploymentCall tc.2 = false := by
  simp only [callsUpToVerify, List.mem_append, List.mem_singleton,
    List.not_mem_nil, or_false] at htc
  rcases htc with htc | htc | rfl
  · exact mem_callsUpToChild htc
  · exact ⟨(mem_chainCalls htc).1, (mem_chainCalls htc).2.1⟩
  · simp [isDeploymentCall]

theorem mem_fullCalls {name verb a rootId childId : String} {tc : Nat × GatewayCall}
    (htc : tc ∈ fullCalls name verb a rootId childId) :
    (tc.1 = 0 ∧ isDeploymentCall tc.2 = false) ∨
      tc = (10, GatewayCall.createDeployment a "prod" depDescr) := by
  simp only [fullCalls, List.mem_append, List.mem_singleton,
    List.not_mem_nil, or_false] at htc
  rcases htc with htc | rfl
  · exact Or.inl (mem_callsUpToVerify htc)
  · exact Or.inr rfl

/-- In every run, wiring calls are issued at clock 0 and deployment calls at
clock 10. -/
theorem runTrace_times (env : Env) (name verb : String) :
    ∀ tc ∈ runTrace name verb env,
      (isWiringCall tc.2 = true → tc.1 = 0) ∧ (isDeploymentCall tc.2 = true → tc.1 = 10) := by
  intro tc htc
  rcases runTrace_shapes env name verb with h | ⟨a, h⟩ | ⟨a, r, h⟩ | ⟨a, r, c, h⟩ | ⟨a, r, c, h⟩ <;>
    rw [h] at htc
  · simp only [List.mem_singleton] at htc
    subst htc
    simp [isWiringCall, isDeploymentCall]
  · simp only [List.mem_cons, List.not_mem_nil, or_false] at htc
    rcases htc with rfl | rfl <;> simp [isWiringCall, isDeploymentCall]
  · obtain ⟨h0, hnd⟩ := mem_callsUpToChild htc
    exact ⟨fun _ => h0, fun hd => by simp [hnd] at hd⟩
  · obtain ⟨h0, hnd⟩ := mem_callsUpToVerify htc
    exact ⟨fun _ => h0, fun hd => by simp [hnd] at hd⟩
  · rcases mem_fullCalls htc with ⟨h0, hnd⟩ | rfl
    · exact ⟨fun _ => h0, fun hd => by simp [hnd] at hd⟩
    · exact ⟨fun hw => by simp [isWiringCall] at hw, fun _ => rfl⟩

/-- No run ever issues more than one deployment call. -/
theorem deployment_count_le_one (env : Env) (name verb : String) :
    countCalls isDeploymentCall (runTrace name verb env) ≤ 1 := by
  rcases runTrace_shapes env name verb with h | ⟨a, h⟩ | ⟨a, r, h⟩ | ⟨a, r, c, h⟩ | ⟨a, r, c, h⟩ <;>
    simp [h, countCalls, isDeploymentCall, callsUpToChild, callsUpToVerify, fullCalls,
      chainCalls, List.countP_cons, List.countP_append]

end AwsGateway

namespace AwsGateway

/-- C1: For every valid (api name, http verb) input, a run of the
orchestrator `setup_rest_api_gateway` in which all gateway calls succeed
(the oracle returns a truthy API id, a listing containing a root item, and a
truthy child id distinct from the root id) issues exactly one API-creation
call, exactly one child-resource-creation call, exactly two complete wiring
chains — the method, method-response, integration and integration-response
calls once each for the root resource and once each for the child
resource — and exactly one deployment call; and no run of the orchestrator
ever issues more than one deployment call. -/
theorem successful_run_call_counts (env : Env) (name verb a c : String)
    (items items2 : List ResourceItem) (item : ResourceItem)
    (h0 : env.createRestApiR 0 name = Except.ok a) (ha : a.isEmpty = false)
    (h1 : env.getResourcesR 1 a = Except.ok items)
    (hf : items.find? (fun it => it.path == "/") = some item)
    (h6 : env.createResourceR 6 a item.id "test" = Except.ok c) (hc : c.isEmpty = false)
    (h11 : env.getResourcesR 11 a = Except.ok items2)
    (hne : c ≠ item.id) :
    countCalls isCreateApiCall (runTrace name verb env) = 1 ∧
    countCalls isCreateResourceCall (runTrace name verb env) = 1 ∧
    countCalls (isMethodCallOn item.id) (runTrace name verb env) = 1 ∧
    countCalls (isMethodResponseCallOn item.id) (runTrace name verb env) = 1 ∧
    countCalls (isIntegrationCallOn item.id) (runTrace name verb env) = 1 ∧
    countCalls (isIntegrationResponseCallOn item.id) (runTrace name verb env) = 1 ∧
    countCalls (isMethodCallOn c) (runTrace name verb env) = 1 ∧
    countCalls (isMethodResponseCallOn c) (runTrace name verb env) = 1 ∧
    countCalls (isIntegrationCallOn c) (runTrace name verb env) = 1 ∧
    countCalls (isIntegrationResponseCallOn c) (runTrace name verb env) = 1 ∧
    countCalls isDeploymentCall (runTrace name verb env) = 1 ∧
    (∀ env2 name2 verb2, countCalls isDeploymentCall (runTrace name2 verb2 env2) ≤ 1) := by
  have htr := (run_full env name verb a c items items2 item h0 ha h1 hf h6 hc h11).2
  rw [htr]
  refine ⟨?_, ?_, ?_, ?_, ?_, ?_, ?_, ?_, ?_, ?_, ?_,
    fun env2 name2 verb2 => deployment_count_le_one env2 name2 verb2⟩ <;>
    simp [countCalls, fullCalls, callsUpToVerify, callsUpToChild, chainCalls,
      isCreateApiCall, isCreateResourceCall, isDeploymentCall, isMethodCallOn,
      isMethodResponseCallOn, isIntegrationCallOn, isIntegrationResponseCallOn,
      List.countP_cons, List.countP_append, hne, Ne.symm hne]

/-- Witness for C1 at a concrete all-success oracle. -/
theorem successful_run_call_counts_witness :
    countCalls isCreateApiCall (runTrace "demo-api" "GET" envAllOk) = 1 ∧
    countCalls isDeploymentCall (runTrace "demo-api" "GET" envAllOk) = 1 := by
  have h := successful_run_call_counts envAllOk "demo-api" "GET" "api1" "child1"
    [{ id := "root1", path := "/" }, { id := "child1", path := "/test" }]
    [{ id := "root1", path := "/" }, { id := "child1", path := "/test" }]
    { id := "root1", path := "/" }
    rfl (by decide) rfl (by decide) rfl (by decide) rfl (by decide)
  exact ⟨h.1, h.2.2.2.2.2.2.2.2.2.2.1⟩

/-- C2: For every run in which `create_child_resource` fails (the oracle
raises a `ClientError` or returns a falsy child id), every wiring call of
the run targets the root resource — none targets the child — the four root
wiring calls still occur exactly once each, and no deployment call is
issued in that run. -/
theorem child_failure_skips_child_wiring_and_deployment (env : Env)
    (name verb a : String) (items : List ResourceItem) (item : ResourceItem)
    (h0 : env.createRestApiR 0 name = Except.ok a) (ha : a.isEmpty = false)
    (h1 : env.getResourcesR 1 a = Except.ok items)
    (hf : items.find? (fun it => it.path == "/") = some item)
    (h6 : (∃ e, env.createResourceR 6 a item.id "test" = Except.error e) ∨
          (∃ c, env.createResourceR 6 a item.id "test" = Except.ok c ∧ c.isEmpty = true)) :
    (∀ tc ∈ runTrace name verb env, isWiringCall tc.2 = true →
        wiringTarget tc.2 = some item.id) ∧
    countCalls (isMethodCallOn item.id) (runTrace name verb env) = 1 ∧
    countCalls (isMethodResponseCallOn item.id) (runTrace name verb env) = 1 ∧
    countCalls (isIntegrationCallOn item.id) (runTrace name verb env) = 1 ∧
    countCalls (isIntegrationResponseCallOn item.id) (runTrace name verb env) = 1 ∧
    countCalls isDeploymentCall (runTrace name verb env) = 0 := by
  have htr : runTrace name verb env = callsUpToChild name verb a item.id := by
    rcases h6 with ⟨e, h6⟩ | ⟨c, h6, hc⟩
    · exact (run_childFailErr env name verb a e items item h0 ha h1 hf h6).2
    · exact (run_childFailFalsy env name verb a c items item h0 ha h1 hf h6 hc).2
  rw [htr]
  refine ⟨?_, ?_, ?_, ?_, ?_, ?_⟩
  · intro tc htc hw
    simp only [callsUpToChild, chainCalls, List.cons_append, List.nil_append,
      List.mem_cons, List.not_mem_nil, or_false] at htc
    rcases htc with rfl | rfl | rfl | rfl | rfl | rfl | rfl <;>
      simp [isWiringCall, wiringTarget] at hw ⊢
  all_goals
    simp [countCalls, callsUpToChild, chainCalls, isDeploymentCall, isMethodCallOn,
      isMethodResponseCallOn, isIntegrationCallOn, isIntegrationResponseCallOn,
      List.countP_cons, List.countP_append]

/-- Witness for C2 at a concrete oracle whose child-resource creation
fails. -/
theorem child_failure_witness :
    countCalls isDeploymentCall (runTrace "demo-api" "GET" envChildFail) = 0 ∧
    countCalls (isMethodCallOn "root1") (runTrace "demo-api" "GET" envChildFail) = 1 := by
  have h := child_failure_skips_child_wiring_and_deployment envChildFail "demo-api" "GET"
    "api1" [{ id := "root1", path := "/" }, { id := "child1", path := "/test" }]
    { id := "root1", path := "/" }
    rfl (by decide) rfl (by decide) (Or.inl ⟨"conflict", rfl⟩)
  exact ⟨h.2.2.2.2.2, h.2.1⟩

/-- C3: For every run in which `create_rest_api` returns no API id (the
provider call fails, so the function returns `None`, or the returned id is
falsy), the orchestrator terminates the run immediately with `exit(1)` and
the trace holds only the single API-creation call: no resource resolution,
wiring, verification or deployment call follows. -/
theorem api_failure_stops_run (env : Env) (name verb : String)
    (h0 : (∃ e, env.createRestApiR 0 name = Except.error e) ∨
          (∃ a, env.createRestApiR 0 name = Except.ok a ∧ a.isEmpty = true)) :
    (run name verb env).1 = Except.error (PyError.systemExit 1) ∧
      runTrace name verb env = [(0, GatewayCall.createRestApi name apiDescr ["REGIONAL"])] := by
  rcases h0 with ⟨e, h0⟩ | ⟨a, h0, ha⟩
  · exact run_apiErr env name verb e h0
  · exact run_apiFalsy env name verb a h0 ha

/-- Witness for C3 at a concrete oracle whose API creation fails. -/
theorem api_failure_stops_run_witness :
    (run "demo-api" "GET" envApiFail).1 = Except.error (PyError.systemExit 1) ∧
      runTrace "demo-api" "GET" envApiFail =
        [(0, GatewayCall.createRestApi "demo-api" apiDescr ["REGIONAL"])] :=
  api_failure_stops_run envApiFail "demo-api" "GET" (Or.inl ⟨"denied", rfl⟩)

/-- C4: In every run, a deployment call is issued at least 10 time units
(the configured propagation interval, `time.sleep(10)`) after every wiring
call of that run. -/
theorem deployment_waits_propagation_interval (env : Env) (name verb : String)
    (td tw : Nat) (cd cw : GatewayCall)
    (hd : (td, cd) ∈ runTrace name verb env) (hdc : isDeploymentCall cd = true)
    (hw : (tw, cw) ∈ runTrace name verb env) (hwc : isWiringCall cw = true) :
    tw + 10 ≤ td := by
  have h1 := (runTrace_times env name verb (td, cd) hd).2 hdc
  have h2 := (runTrace_times env name verb (tw, cw) hw).1 hwc
  simp only at h1 h2
  omega

/-- Witness for C4 at a concrete all-success oracle: the deployment call is
issued at clock 10, the root method call at clock 0. -/
theorem deployment_waits_witness :
    ((10, GatewayCall.createDeployment "api1" "prod" depDescr) ∈
        runTrace "demo-api" "GET" envAllOk) ∧
    ((0, GatewayCall.putMethod "api1" "root1" "GET" "NONE") ∈
        runTrace "demo-api" "GET" envAllOk) ∧
    0 + 10 ≤ 10 := by
  have htr : runTrace "demo-api" "GET" envAllOk =
      fullCalls "demo-api" "GET" "api1" "root1" "child1" :=
    (run_full envAllOk "demo-api" "GET" "api1" "child1"
      [{ id := "root1", path := "/" }, { id := "child1", path := "/test" }]
      [{ id := "root1", path := "/" }, { id := "child1", path := "/test" }]
      { id := "root1", path := "/" }
      rfl (by decide) rfl (by decide) rfl (by decide) rfl).2
  have hmd : (10, GatewayCall.createDeployment "api1" "prod" depDescr) ∈
      runTrace "demo-api" "GET" envAllOk := by
    rw [htr]; simp [fullCalls, callsUpToVerify, callsUpToChild, chainCalls]
  have hmw : (0, GatewayCall.putMethod "api1" "root1" "GET" "NONE") ∈
      runTrace "demo-api" "GET" envAllOk := by
    rw [htr]; simp [fullCalls, callsUpToVerify, callsUpToChild, chainCalls]
  exact ⟨hmd, hmw,
    deployment_waits_propagation_interval envAllOk "demo-api" "GET" 10 0
      (GatewayCall.createDeployment "api1" "prod" depDescr)
      (GatewayCall.putMethod "api1" "root1" "GET" "NONE") hmd rfl hmw rfl⟩

end AwsGateway

namespace AwsConfig

/-- C5: Configuration resolution in debug mode succeeds with the
local-endpoint tuple (local endpoint, fixed placeholder region and
credentials) regardless of the other environment variables; in production
mode it fails with a `ConfigurationError` exactly when one of the region,
access-key or secret-key variables is unset or empty. -/
theorem load_aws_config_modes (envv : EnvVars) (host : String) :
    (((envv "DEBUG").getD "0") = "1" →
        load_aws_config envv host = Except.ok
          { endpoint_url := host, region_name := "us-east-1",
            aws_access_key_id := "test", aws_secret_access_key := "test" }) ∧
    (((envv "DEBUG").getD "0") ≠ "1" →
        ((∃ k ∈ requiredKeys, envTruthy (envv k) = false) ↔
          (∃ msg, load_aws_config envv host =
            Except.error (ConfigError.configurationError msg)))) := by
  constructor
  · intro hdbg
    simp [load_aws_config, hdbg]
  · intro hdbg
    rcases hfind : requiredKeys.find? (fun k => !envTruthy (envv k)) with _ | k
    · have hall := List.find?_eq_none.mp hfind
      constructor
      · rintro ⟨k, hk, hkf⟩
        have := hall k hk
        simp [hkf] at this
      · rintro ⟨msg, hmsg⟩
        rw [load_aws_config] at hmsg
        simp [hdbg, hfind] at hmsg
    · have hkmem := List.mem_of_find?_eq_some hfind
      have hkp := List.find?_some hfind
      constructor
      · intro _
        refine ⟨"Missing required AWS environment variable: " ++ k, ?_⟩
        rw [load_aws_config]
        simp [hdbg, hfind]
      · intro _
        exact ⟨k, hkmem, by simpa using hkp⟩

/-- Witness for C5: debug mode with a concrete environment, and a
production environment with everything unset failing. -/
theorem load_aws_config_modes_witness :
    load_aws_config envvDebug "http://localhost:4566" = Except.ok
      { endpoint_url := "http://localhost:4566", region_name := "us-east-1",
        aws_access_key_id := "test", aws_secret_access_key := "test" } ∧
    (∃ msg, load_aws_config envvEmpty "h" =
      Except.error (ConfigError.configurationError msg)) :=
  ⟨(load_aws_config_modes envvDebug "http://localhost:4566").1 (by decide),
   ((load_aws_config_modes envvEmpty "h").2 (by decide)).mp
     ⟨"AWS_REGION", by decide, by decide⟩⟩

/-- C9: In production mode with the three required variables truthy and
`AWS_ENDPOINT_URL` unset, `load_aws_config` succeeds and its endpoint field
is the literal four-character string `"None"` — the Python `str(None)` of
the absent value — not an omitted or defaulted endpoint. -/
theorem prod_endpoint_stringified_none (envv : EnvVars) (host : String)
    (hdbg : ((envv "DEBUG").getD "0") ≠ "1")
    (hr : envTruthy (envv "AWS_REGION") = true)
    (hk : envTruthy (envv "AWS_ACCESS_KEY_ID") = true)
    (hs : envTruthy (envv "AWS_SECRET_ACCESS_KEY") = true)
    (he : envv "AWS_ENDPOINT_URL" = none) :
    load_aws_config envv host = Except.ok
      { endpoint_url := "None",
        region_name := pyStr (envv "AWS_REGION"),
        aws_access_key_id := pyStr (envv "AWS_ACCESS_KEY_ID"),
        aws_secret_access_key := pyStr (envv "AWS_SECRET_ACCESS_KEY") } := by
  have hfind : requiredKeys.find? (fun k => !envTruthy (envv k)) = none := by
    simp [requiredKeys, List.find?, hr, hk, hs]
  rw [load_aws_config]
  simp [hdbg, hfind, he, pyStr]

/-- Witness for C9 at a concrete production environment. -/
theorem prod_endpoint_stringified_none_witness :
    load_aws_config envvProd "ignored-host" = Except.ok
      { endpoint_url := "None", region_name := "eu-west-1",
        aws_access_key_id := "AKIA123", aws_secret_access_key := "secret123" } := by
  have h := prod_endpoint_stringified_none envvProd "ignored-host"
    (by decide) (by decide) (by decide) (by decide) (by decide)
  simpa [envvProd, pyStr] using h

end AwsConfig

namespace AwsGateway

/-- C6 counterexample: `get_root_resource_id` has no `try`/`except`, so a
provider `ClientError` raised during root-resource resolution escapes the
adapter boundary raw and unwrapped, contradicting the claim that no
raw/unclassified error ever propagates. -/
theorem get_root_resource_id_raw_error_escapes :
    (get_root_resource_id "api1" envListFail initSt).1 =
      Except.error (PyError.clientError "boom") := by
  have h := get_root_clientError envListFail initSt "api1" "boom" rfl
  simp [h]

/-- C6 (amended): every adapter operation that wraps its remote call in
`try`/`except ClientError` — API creation, child-resource creation, the four
wiring operations, and deployment — never lets any error escape (it reports
the failing operation together with the underlying cause and returns a falsy
result instead); but root-resource resolution (`get_root_resource_id`) and
the verification listing (`print_resources`) have no handler and let the raw
`ClientError` propagate across the adapter boundary. -/
theorem adapter_error_surfacing (env : Env) (s : St)
    (name api parent pp rid verb body stage e : String) :
    ((create_rest_api name env s).1.isOk = true) ∧
    (env.createRestApiR s.calls.length name = Except.error e →
      (create_rest_api name env s).2.output =
        s.output ++ ["Error creating API: " ++ e]) ∧
    ((create_child_resource api parent pp env s).1.isOk = true) ∧
    (env.createResourceR s.calls.length api parent pp = Except.error e →
      (create_child_resource api parent pp env s).2.output =
        s.output ++ ["Error creating child resource: " ++ e]) ∧
    ((create_method api rid verb env s).1.isOk = true) ∧
    ((create_method_response api rid verb env s).1.isOk = true) ∧
    ((set_mock_integration api rid verb body env s).1.isOk = true) ∧
    ((set_mock_integration_response api rid verb body env s).1.isOk = true) ∧
    ((create_deployment api stage env s).1.isOk = true) ∧
    (env.createDeploymentR s.calls.length api stage = Except.error e →
      (create_deployment api stage env s).2.output =
        s.output ++ ["Error deploying API: " ++ e]) ∧
    (env.getResourcesR s.calls.length api = Except.error e →
      (get_root_resource_id api env s).1 = Except.error (PyError.clientError e)) ∧
    (env.getResourcesR s.calls.length api = Except.error e →
      (print_resources api env s).1 = Except.error (PyError.clientError e)) := by
  refine ⟨?_, ?_, ?_, ?_, ?_, ?_, ?_, ?_, ?_, ?_, ?_, ?_⟩
  · rcases hr : env.createRestApiR s.calls.length name with e2 | a2 <;>
      simp [create_rest_api_err, create_rest_api_ok, hr, Except.isOk, Except.toBool]
  · intro h
    simp [create_rest_api_err env s name e h]
  · rcases hr : env.createResourceR s.calls.length api parent pp with e2 | c2 <;>
      simp [create_child_err, create_child_ok, hr, Except.isOk, Except.toBool]
  · intro h
    simp [create_child_err env s api parent pp e h]
  · simp [create_method_run, Except.isOk, Except.toBool]
  · simp [create_method_response_run, Except.isOk, Except.toBool]
  · simp [set_mock_integration_run, Except.isOk, Except.toBool]
  · simp [set_mock_integration_response_run, Except.isOk, Except.toBool]
  · rcases hr : env.createDeploymentR s.calls.length api stage with e2 | d2 <;>
      simp [create_deployment_err, create_deployment_ok, hr, Except.isOk, Except.toBool]
  · intro h
    simp [create_deployment_err env s api stage e h]
  · intro h
    simp [get_root_clientError env s api e h]
  · intro h
    simp [print_resources_err env s api e h]

/-- Witness for C6's amended claim: a failing API creation is caught and
reported. -/
theorem adapter_error_surfacing_witness :
    ((create_rest_api "demo-api" envApiFail initSt).1.isOk = true) ∧
    ((create_rest_api "demo-api" envApiFail initSt).2.output =
      [] ++ ["Error creating API: " ++ "denied"]) := by
  have h := adapter_error_surfacing envApiFail initSt "demo-api" "api1" "root1" "test"
    "root1" "GET" "b" "prod" "denied"
  exact ⟨h.1, h.2.1 rfl⟩

end AwsGateway

namespace AwsGateway

theorem find?_first_slash (item : ResourceItem) (l2 : List ResourceItem)
    (hpath : item.path = "/") :
    ∀ l1 : List ResourceItem, (∀ prev ∈ l1, prev.path ≠ "/") →
      (l1 ++ item :: l2).find? (fun it => it.path == "/") = some item := by
  intro l1
  induction l1 with
  | nil =>
      intro _
      simp [List.find?_cons_of_pos, hpath]
  | cons y ys ih =>
      intro hprev
      rw [List.cons_append, List.find?_cons_of_neg _
        (by simp only [beq_iff_eq]; exact hprev y (List.mem_cons_self _ _))]
      exact ih (fun p hp => hprev p (List.mem_cons_of_mem _ hp))

/-- C7: Each of the four wiring operations catches `GatewayError` — it never
lets an error escape (its result is always `ok`), and on a provider failure
it reports the failing step with the underlying cause; and at the
orchestrator level, whatever the outcomes of the wiring calls (no hypothesis
constrains them), a run that created its resources still issues all four
root wiring calls and all four child wiring calls — a wiring-step failure
never halts the remaining wiring steps. -/
theorem wiring_step_failures_caught_and_run_continues (env : Env) (s : St)
    (api rid verb body e name a c : String) (items : List ResourceItem)
    (item : ResourceItem) :
    ((create_method api rid verb env s).1.isOk = true) ∧
    (env.putMethodR s.calls.length api rid verb = Except.error e →
      (create_method api rid verb env s).2.output =
        s.output ++ ["Error creating method: " ++ e]) ∧
    ((create_method_response api rid verb env s).1.isOk = true) ∧
    (env.putMethodResponseR s.calls.length api rid verb = Except.error e →
      (create_method_response api rid verb env s).2.output =
        s.output ++ ["Error creating method response: " ++ e]) ∧
    ((set_mock_integration api rid verb body env s).1.isOk = true) ∧
    (env.putIntegrationR s.calls.length api rid verb = Except.error e →
      (set_mock_integration api rid verb body env s).2.output =
        s.output ++ ["Error setting integration: " ++ e]) ∧
    ((set_mock_integration_response api rid verb body env s).1.isOk = true) ∧
    (env.putIntegrationResponseR s.calls.length api rid verb = Except.error e →
      (set_mock_integration_response api rid verb body env s).2.output =
        s.output ++ ["Error setting integration response: " ++ e]) ∧
    (env.createRestApiR 0 name = Except.ok a → a.isEmpty = false →
      env.getResourcesR 1 a = Except.ok items →
      items.find? (fun it => it.path == "/") = some item →
      env.createResourceR 6 a item.id "test" = Except.ok c → c.isEmpty = false →
      (∀ tc ∈ chainCalls a item.id verb "Hello from root!",
        tc ∈ runTrace name verb env) ∧
      (∀ tc ∈ chainCalls a c verb "Hello from /test!",
        tc ∈ runTrace name verb env)) := by
  refine ⟨?_, ?_, ?_, ?_, ?_, ?_, ?_, ?_, ?_⟩
  · simp [create_method_run, Except.isOk, Except.toBool]
  · intro h
    simp [create_method_run, h, methodLine]
  · simp [create_method_response_run, Except.isOk, Except.toBool]
  · intro h
    simp [create_method_response_run, h, methodResponseLine]
  · simp [set_mock_integration_run, Except.isOk, Except.toBool]
  · intro h
    simp [set_mock_integration_run, h, integrationLine]
  · simp [set_mock_integration_response_run, Except.isOk, Except.toBool]
  · intro h
    simp [set_mock_integration_response_run, h, integrationResponseLine]
  · intro h0 ha h1 hf h6 hc
    rcases h11 : env.getResourcesR 11 a with e2 | items2
    · have htr := (run_verifyErr env name verb a c e2 items item h0 ha h1 hf h6 hc h11).2
      rw [htr]
      constructor <;> intro tc htc <;>
        simp [callsUpToVerify, callsUpToChild, List.mem_append, List.mem_cons, htc]
    · have htr := (run_full env name verb a c items items2 item h0 ha h1 hf h6 hc h11).2
      rw [htr]
      constructor <;> intro tc htc <;>
        simp [fullCalls, callsUpToVerify, callsUpToChild, List.mem_append,
          List.mem_cons, htc]

/-- Witness for C7 at a concrete oracle whose `put_method` calls fail: the
failure is caught and reported, and the child wiring still happens. -/
theorem wiring_step_failures_witness :
    ((create_method "api1" "root1" "GET" envWireFail initSt).1.isOk = true) ∧
    ((create_method "api1" "root1" "GET" envWireFail initSt).2.output =
      [] ++ ["Error creating method: " ++ "down"]) ∧
    ((0, GatewayCall.putMethod "api1" "child1" "GET" "NONE") ∈
      runTrace "demo-api" "GET" envWireFail) := by
  have h := wiring_step_failures_caught_and_run_continues envWireFail initSt "api1"
    "root1" "GET" "b" "down" "demo-api" "api1" "child1"
    [{ id := "root1", path := "/" }, { id := "child1", path := "/test" }]
    { id := "root1", path := "/" }
  refine ⟨h.1, h.2.1 rfl, ?_⟩
  have hcont := h.2.2.2.2.2.2.2.2 rfl (by decide) rfl (by decide) rfl (by decide)
  exact hcont.2 (0, GatewayCall.putMethod "api1" "child1" "GET" "NONE")
    (by simp [chainCalls])

/-- C8: `get_root_resource_id` is partial: when the listing succeeds and
contains an item whose path is `"/"`, it returns the id of the first such
item; when the listing succeeds but contains no such item, the `next` call
raises an uncaught, unclassified `StopIteration`. -/
theorem get_root_resource_id_first_slash (env : Env) (s : St) (api : String)
    (items : List ResourceItem)
    (h : env.getResourcesR s.calls.length api = Except.ok items) :
    (∀ l1 item l2, items = l1 ++ item :: l2 → item.path = "/" →
        (∀ prev ∈ l1, prev.path ≠ "/") →
        (get_root_resource_id api env s).1 = Except.ok item.id) ∧
    ((∀ item ∈ items, item.path ≠ "/") →
        (get_root_resource_id api env s).1 = Except.error PyError.stopIteration) := by
  constructor
  · intro l1 item l2 hitems hpath hprev
    have hfind : items.find? (fun it => it.path == "/") = some item := by
      rw [hitems]
      exact find?_first_slash item l2 hpath l1 hprev
    simp [get_root_ok env s api items item h hfind]
  · intro hnone
    have hfind : items.find? (fun it => it.path == "/") = none := by
      apply List.find?_eq_none.mpr
      intro x hx
      simpa using hnone x hx
    simp [get_root_stop env s api items h hfind]

/-- Witness for C8: the first root item is found on a listing that has one;
`StopIteration` escapes on a listing that has none. -/
theorem get_root_resource_id_first_slash_witness :
    (get_root_resource_id "api1" envAllOk initSt).1 = Except.ok "root1" ∧
    (get_root_resource_id "api1" envNoRoot initSt).1 =
      Except.error PyError.stopIteration := by
  constructor
  · exact (get_root_resource_id_first_slash envAllOk initSt "api1"
      [{ id := "root1", path := "/" }, { id := "child1", path := "/test" }] rfl).1
      [] { id := "root1", path := "/" } [{ id := "child1", path := "/test" }] rfl rfl
      (by simp)
  · exact (get_root_resource_id_first_slash envNoRoot initSt "api1"
      [{ id := "x1", path := "/other" }] rfl).2
      (by intro it hit; fin_cases hit; decide)

/-- C10: The remote request issued by `set_mock_integration` is independent
of its `response_body` argument — two calls differing only in the body are
identical in every observable (result, trace, output), and the recorded
`put_integration` request carries the fixed request template holding only
the status code; the body shows up only in the template recorded by
`set_mock_integration_response`. -/
theorem set_mock_integration_body_independent (env : Env) (s : St)
    (api rid verb b1 b2 : String) :
    set_mock_integration api rid verb b1 env s =
      set_mock_integration api rid verb b2 env s ∧
    (set_mock_integration api rid verb b1 env s).2.calls =
      s.calls ++ [(s.clock,
        GatewayCall.putIntegration api rid verb "MOCK" integrationRequestTemplate)] ∧
    (set_mock_integration_response api rid verb b1 env s).2.calls =
      s.calls ++ [(s.clock,
        GatewayCall.putIntegrationResponse api rid verb "200"
          (integrationResponseTemplate b1))] := by
  refine ⟨rfl, ?_, ?_⟩ <;>
    simp [set_mock_integration_run, set_mock_integration_response_run]

end AwsGateway
